import Mathlib

/-!
Shallow embedding of the SimpleMicroservices FastAPI application
(`src/main.py`, `src/models/product.py`, `src/models/order.py`).

Modelling conventions:
* `UUID` values are modelled as `Nat` keys; `datetime` values as `Nat` clock
  ticks supplied explicitly to every endpoint that reads `datetime.utcnow()`.
* Python `float` prices and totals are modelled as exact rationals `ℚ`;
  Python's `round(x, 2)` (round-half-to-even) is modelled by `round2`,
  round-half-to-even at two decimal places on exact rationals.
* Each in-memory store (`persons`, `addresses`, `products`, `orders` in
  `src/main.py`) is an insertion-ordered association list `Store`, mirroring a
  Python `dict`: assignment to a present key replaces the value in place,
  assignment to an absent key appends, and `.values()` iterates in insertion
  order.
* `HTTPException` and Python runtime errors are modelled by the `Err` type;
  an endpoint that raises returns `.error` and the global state is unchanged
  (the caller keeps the old `AppState`).
* Pydantic's `model_dump(exclude_unset=True)` partial-update payloads are
  modelled per field as `Option` (absent / provided); a field that is
  nullable in the wire format and can be explicitly `null` is modelled as
  `Option (Option _)` (absent / provided-null / provided-value).
* `src/models/person.py` and `src/models/address.py` are not in the source
  tree; `PersonRead`, `PersonCreate`, `AddressRead`, `AddressCreate` and
  `AddressUpdate` below are modelled from the spec (see their doc comments).
-/

/-- Error outcomes of the endpoints: `HTTPException(404, ...)`,
`HTTPException(400, ... already exists)`, `HTTPException(400, Unknown
product_id ...)` carrying the offending product id, and a Python
`AttributeError` escaping an endpoint (an unhandled 500). -/
inductive Err where
  | notFound : String → Err
  | conflict : String → Err
  | unknownProduct : Nat → Err
  | attributeError : String → Err
deriving DecidableEq, Repr

/-- A Python `dict` keyed by UUID, as an insertion-ordered association list. -/
abbrev Store (α : Type) := List (Nat × α)

namespace Store

/-- `d.get(k)` / `d[k]` lookup. -/
def lookup {α : Type} : Store α → Nat → Option α
  | [], _ => none
  | (k', v) :: t, k => if k' = k then some v else lookup t k

/-- `d[k] = v` assignment: replaces in place when `k` is present (keeping its
position, as Python dicts do), appends otherwise. -/
def setv {α : Type} : Store α → Nat → α → Store α
  | [], k, v => [(k, v)]
  | (k', v') :: t, k, v => if k' = k then (k, v) :: t else (k', v') :: setv t k v

/-- `del d[k]`. -/
def erase {α : Type} : Store α → Nat → Store α
  | [], _ => []
  | (k', v') :: t, k => if k' = k then t else (k', v') :: erase t k

/-- `list(d.values())`, in insertion order. -/
def values {α : Type} (s : Store α) : List α := s.map Prod.snd

theorem lookup_setv_self {α : Type} (s : Store α) (k : Nat) (v : α) :
    lookup (setv s k v) k = some v := by
  induction s with
  | nil => simp [setv, lookup]
  | cons hd t ih =>
    obtain ⟨k', v'⟩ := hd
    by_cases h : k' = k <;> simp [setv, lookup, h, ih]

theorem lookup_setv_ne {α : Type} (s : Store α) (k k' : Nat) (v : α)
    (h : k ≠ k') : lookup (setv s k v) k' = lookup s k' := by
  induction s with
  | nil => simp [setv, lookup, h]
  | cons hd t ih =>
    obtain ⟨k0, v0⟩ := hd
    by_cases h0 : k0 = k
    · subst h0
      simp [setv, lookup, h]
    · simp [setv, lookup, h0, ih]

@[simp] theorem values_nil {α : Type} : values ([] : Store α) = [] := rfl

@[simp] theorem values_cons {α : Type} (k : Nat) (v : α) (t : Store α) :
    values ((k, v) :: t) = v :: values t := rfl

theorem mem_values_setv {α : Type} {s : Store α} {k : Nat} {v x : α}
    (h : x ∈ values (setv s k v)) : x = v ∨ x ∈ values s := by
  induction s with
  | nil =>
    simp only [setv, values_cons, values_nil, List.mem_singleton] at h
    exact Or.inl h
  | cons hd t ih =>
    obtain ⟨k0, v0⟩ := hd
    by_cases h0 : k0 = k
    · simp only [setv, if_pos h0, values_cons] at h
      rcases List.mem_cons.mp h with h1 | h1
      · exact Or.inl h1
      · exact Or.inr (List.mem_cons_of_mem _ h1)
    · simp only [setv, if_neg h0, values_cons] at h
      rcases List.mem_cons.mp h with h1 | h1
      · subst h1
        exact Or.inr (List.mem_cons_self _ _)
      · rcases ih h1 with h2 | h2
        · exact Or.inl h2
        · exact Or.inr (List.mem_cons_of_mem _ h2)

theorem mem_values_erase {α : Type} {s : Store α} {k : Nat} {x : α}
    (h : x ∈ values (erase s k)) : x ∈ values s := by
  induction s with
  | nil => simp only [erase] at h; exact h
  | cons hd t ih =>
    obtain ⟨k0, v0⟩ := hd
    by_cases h0 : k0 = k
    · simp only [erase, if_pos h0] at h
      exact List.mem_cons_of_mem _ h
    · simp only [erase, if_neg h0, values_cons] at h
      rcases List.mem_cons.mp h with h1 | h1
      · subst h1
        exact List.mem_cons_self _ _
      · exact List.mem_cons_of_mem _ (ih h1)

end Store

/-- Floor of a rational. -/
def floorQ (q : ℚ) : ℤ := q.num.fdiv (q.den : ℤ)

/-- Round a rational to the nearest integer, ties to even, as Python's
built-in `round` does. -/
def roundHalfEven (q : ℚ) : ℤ :=
  let f := floorQ q
  let r := q - (f : ℚ)
  if r < 1 / 2 then f
  else if 1 / 2 < r then f + 1
  else if f % 2 = 0 then f else f + 1

/-- Python's `round(x, 2)`, on exact rationals. -/
def round2 (q : ℚ) : ℚ := (roundHalfEven (q * 100) : ℚ) / 100

/-- `LineItem` (src/models/order.py): `product_id` UUID and a quantity. -/
structure LineItem where
  product_id : Nat
  quantity : Nat
deriving DecidableEq, Repr

/-- `ProductRead` (src/models/product.py): stored product snapshot. -/
structure ProductRead where
  id : Nat
  name : String
  description : Option String
  price : ℚ
  in_stock : Nat
  created_at : Nat
  updated_at : Nat
deriving DecidableEq, Repr

/-- `ProductCreate` (src/models/product.py): creation payload, client may
supply the id. -/
structure ProductCreate where
  id : Nat
  name : String
  description : Option String
  price : ℚ
  in_stock : Nat
deriving DecidableEq, Repr

/-- `ProductUpdate` (src/models/product.py): PATCH payload under
`model_dump(exclude_unset=True)`. `description` is nullable in `ProductRead`,
so an explicitly provided `null` is representable; `name`, `price` and
`in_stock` are non-nullable on the stored snapshot, so a provided value is a
value of the field's type (payloads are assumed well-typed per spec section 6). -/
structure ProductUpdate where
  name : Option String
  description : Option (Option String)
  price : Option ℚ
  in_stock : Option Nat
deriving DecidableEq, Repr

/-- `OrderRead` (src/models/order.py): stored order snapshot with timestamps
and the computed `total_amount`. -/
structure OrderRead where
  id : Nat
  customer_name : String
  items : List LineItem
  note : Option String
  created_at : Nat
  updated_at : Nat
  total_amount : ℚ
deriving DecidableEq, Repr

/-- `OrderCreate` (src/models/order.py): creation payload. It has no
`total_amount` field, so the client cannot supply a total on create. -/
structure OrderCreate where
  id : Nat
  customer_name : String
  items : List LineItem
  note : Option String
deriving DecidableEq, Repr

/-- `OrderUpdate` (src/models/order.py): PATCH payload under
`model_dump(exclude_unset=True)`. All three fields are `Optional` in the
Python model, so each can be absent, explicitly `null`, or a value. -/
structure OrderUpdate where
  customer_name : Option (Option String)
  items : Option (Option (List LineItem))
  note : Option (Option String)
deriving DecidableEq, Repr

/-- Modelled from the spec: `AddressRead` (src/models/address.py is missing
from the source tree). Spec section 3: identifier, street, city, state/region,
postal code, country; no timestamps. The id field is also evidenced by
`create_address` in src/main.py reading `address.id`. -/
structure AddressRead where
  id : Nat
  street : String
  city : String
  state : String
  postal_code : String
  country : String
deriving DecidableEq, Repr

/-- Modelled from the spec: `AddressCreate` (src/models/address.py is missing).
Same fields as `AddressRead`; a client-supplied id is honored
(spec section 4.6, and src/main.py `create_address` reads `address.id`). -/
structure AddressCreate where
  id : Nat
  street : String
  city : String
  state : String
  postal_code : String
  country : String
deriving DecidableEq, Repr

/-- Modelled from the spec: `AddressUpdate` (src/models/address.py is missing).
Sparse PATCH payload over the five non-nullable address fields; the identifier
is not patchable. -/
structure AddressUpdate where
  street : Option String
  city : Option String
  state : Option String
  postal_code : Option String
  country : Option String
deriving DecidableEq, Repr

/-- Modelled from the spec: `PersonRead` (src/models/person.py is missing).
Spec section 3: identifier, university-id string, first/last name, email,
phone, birth date, ordered list of embedded Address values; no timestamps.
`birth_date` is modelled as its string form (src/main.py filters compare
`str(p.birth_date)`). -/
structure PersonRead where
  id : Nat
  uni : String
  first_name : String
  last_name : String
  email : String
  phone : String
  birth_date : String
  addresses : List AddressRead
deriving DecidableEq, Repr

/-- Modelled from the spec: `PersonCreate` (src/models/person.py is missing).
The payload carries no identifier: spec section 4.6 lists only
Address/Product/Order as honoring a client-supplied identifier, and
src/main.py `create_person` notes each person gets its own server-side UUID. -/
structure PersonCreate where
  uni : String
  first_name : String
  last_name : String
  email : String
  phone : String
  birth_date : String
  addresses : List AddressRead
deriving DecidableEq, Repr

/-- The four global in-memory stores of src/main.py. -/
structure AppState where
  persons : Store PersonRead
  addresses : Store AddressRead
  products : Store ProductRead
  orders : Store OrderRead
deriving DecidableEq, Repr

/-- Resulting state of running a mutating endpoint: on success the returned
state, on a raised exception the globals are untouched. -/
def applyExcept {β : Type} (s : AppState) (r : Except Err (β × AppState)) : AppState :=
  match r with
  | .ok (_, s') => s'
  | .error _ => s

/-- Case-sensitive check that `needle` is an initial segment of `hay`. -/
def startsWithL : List Char → List Char → Bool
  | [], _ => true
  | _ :: _, [] => false
  | a :: as, b :: bs => a == b && startsWithL as bs

/-- Python's substring operator `needle in hay` on strings, as character
lists. -/
def containsL (needle : List Char) : List Char → Bool
  | [] => needle.isEmpty
  | c :: t => startsWithL needle (c :: t) || containsL needle t

/-- Python's `needle in hay` on `String`. -/
def containsStr (needle hay : String) : Bool := containsL needle.toList hay.toList

/-- Python's `str.lower()` (character-wise lowercasing; the repository's data
is ASCII, where `Char.toLower` agrees with Python). -/
def lowerStr (s : String) : String := String.mk (s.data.map Char.toLower)

/-- `compute_order_total` (src/main.py lines 45-52), running loop: `total`
starts at `0.0`, each line item looks its `product_id` up in the `products`
store (raising `HTTPException(400, Unknown product_id: ...)` with the missing
id when absent) and accumulates `float(prod.price) * int(li.quantity)`;
the final total is rounded to 2 decimal places. -/
def compute_order_total_go (products : Store ProductRead) :
    List LineItem → ℚ → Except Err ℚ
  | [], total => .ok (round2 total)
  | li :: rest, total =>
    match Store.lookup products li.product_id with
    | none => .error (.unknownProduct li.product_id)
    | some prod => compute_order_total_go products rest (total + prod.price * (li.quantity : ℚ))

/-- `compute_order_total` (src/main.py lines 45-52) applied to a list of
`LineItem` model objects, as `create_order` does. -/
def compute_order_total (products : Store ProductRead) (line_items : List LineItem) :
    Except Err ℚ :=
  compute_order_total_go products line_items 0

/-- `compute_order_total` as invoked from `update_order` (src/main.py line
273): there the argument is `updates["items"]`, produced by
`patch.model_dump(exclude_unset=True)` (line 266), which has converted every
`LineItem` into a plain `dict`. On a nonempty list the first loop iteration
evaluates `li.product_id`, an attribute access on a `dict`, and raises
`AttributeError`; on the empty list the loop body never runs and
`round(0.0, 2) = 0.0` is returned. The payload data is the same line items,
so this takes the typed list and reproduces that behaviour. -/
def compute_order_total_dumped (line_items : List LineItem) : Except Err ℚ :=
  match line_items with
  | [] => .ok (round2 0)
  | _ :: _ => .error (.attributeError "product_id")

/-- `create_address` (src/main.py lines 76-81). -/
def create_address (s : AppState) (address : AddressCreate) :
    Except Err (AddressRead × AppState) :=
  if (Store.lookup s.addresses address.id).isSome then
    .error (.conflict "Address with this ID already exists")
  else
    let r : AddressRead :=
      { id := address.id, street := address.street, city := address.city,
        state := address.state, postal_code := address.postal_code,
        country := address.country }
    .ok (r, { s with addresses := Store.setv s.addresses address.id r })

/-- `get_address` (src/main.py lines 106-110). -/
def get_address (s : AppState) (address_id : Nat) : Except Err AddressRead :=
  match Store.lookup s.addresses address_id with
  | none => .error (.notFound "Address not found")
  | some a => .ok a

/-- `update_address` (src/main.py lines 112-119): dumps the stored snapshot,
overlays the explicitly-set payload fields, stores and returns the result. -/
def update_address (s : AppState) (address_id : Nat) (update : AddressUpdate) :
    Except Err (AddressRead × AppState) :=
  match Store.lookup s.addresses address_id with
  | none => .error (.notFound "Address not found")
  | some stored =>
    let r : AddressRead :=
      { id := stored.id, street := update.street.getD stored.street,
        city := update.city.getD stored.city, state := update.state.getD stored.state,
        postal_code := update.postal_code.getD stored.postal_code,
        country := update.country.getD stored.country }
    .ok (r, { s with addresses := Store.setv s.addresses address_id r })

/-- `create_person` (src/main.py lines 124-129): no duplicate check; the
server allocates the person's UUID (`newId`, the value produced by
`PersonRead`'s id default factory) and stores the snapshot under it. -/
def create_person (s : AppState) (person : PersonCreate) (newId : Nat) :
    PersonRead × AppState :=
  let person_read : PersonRead :=
    { id := newId, uni := person.uni, first_name := person.first_name,
      last_name := person.last_name, email := person.email, phone := person.phone,
      birth_date := person.birth_date, addresses := person.addresses }
  (person_read, { s with persons := Store.setv s.persons newId person_read })

/-- `get_person` (src/main.py lines 165-169). -/
def get_person (s : AppState) (person_id : Nat) : Except Err PersonRead :=
  match Store.lookup s.persons person_id with
  | none => .error (.notFound "Person not found")
  | some p => .ok p

/-- `list_persons` (src/main.py lines 131-163): each supplied query parameter
filters the result list in turn; `city`/`country` match when at least one
embedded address matches exactly. -/
def list_persons (s : AppState) (uni first_name last_name email phone birth_date
    city country : Option String) : List PersonRead :=
  let r0 := Store.values s.persons
  let r1 := match uni with
    | none => r0
    | some q => r0.filter (fun p => p.uni == q)
  let r2 := match first_name with
    | none => r1
    | some q => r1.filter (fun p => p.first_name == q)
  let r3 := match last_name with
    | none => r2
    | some q => r2.filter (fun p => p.last_name == q)
  let r4 := match email with
    | none => r3
    | some q => r3.filter (fun p => p.email == q)
  let r5 := match phone with
    | none => r4
    | some q => r4.filter (fun p => p.phone == q)
  let r6 := match birth_date with
    | none => r5
    | some q => r5.filter (fun p => p.birth_date == q)
  let r7 := match city with
    | none => r6
    | some q => r6.filter (fun p => p.addresses.any (fun a => a.city == q))
  let r8 := match country with
    | none => r7
    | some q => r7.filter (fun p => p.addresses.any (fun a => a.country == q))
  r8

/-- `create_product` (src/main.py lines 185-191): rejects a duplicate id,
otherwise builds the `ProductRead` (both timestamp default factories read the
clock at construction) and stores it. -/
def create_product (s : AppState) (product : ProductCreate) (now : Nat) :
    Except Err (ProductRead × AppState) :=
  if (Store.lookup s.products product.id).isSome then
    .error (.conflict "Product with this ID already exists")
  else
    let prod : ProductRead :=
      { id := product.id, name := product.name, description := product.description,
        price := product.price, in_stock := product.in_stock,
        created_at := now, updated_at := now }
    .ok (prod, { s with products := Store.setv s.products prod.id prod })

/-- `list_products` (src/main.py lines 193-201): optional case-insensitive
name-substring filter. The code guards with the truthiness `if name:`, so a
supplied empty string skips the filter. -/
def list_products (s : AppState) (name : Option String) : List ProductRead :=
  let results := Store.values s.products
  match name with
  | none => results
  | some q =>
    if q = "" then results
    else
      let name_l := lowerStr q
      results.filter (fun p => containsStr name_l (lowerStr p.name))

/-- `get_product` (src/main.py lines 203-207). -/
def get_product (s : AppState) (product_id : Nat) : Except Err ProductRead :=
  match Store.lookup s.products product_id with
  | none => .error (.notFound "Product not found")
  | some p => .ok p

/-- `update_product` (src/main.py lines 209-220): dumps the stored snapshot,
overlays the explicitly-set payload fields, refreshes `updated_at`, stores
and returns the result. -/
def update_product (s : AppState) (product_id : Nat) (patch : ProductUpdate)
    (now : Nat) : Except Err (ProductRead × AppState) :=
  match Store.lookup s.products product_id with
  | none => .error (.notFound "Product not found")
  | some data =>
    let updated : ProductRead :=
      { id := data.id, name := patch.name.getD data.name,
        description := patch.description.getD data.description,
        price := patch.price.getD data.price,
        in_stock := patch.in_stock.getD data.in_stock,
        created_at := data.created_at, updated_at := now }
    .ok (updated, { s with products := Store.setv s.products product_id updated })

/-- `delete_product` (src/main.py lines 222-227). -/
def delete_product (s : AppState) (product_id : Nat) : Except Err AppState :=
  if (Store.lookup s.products product_id).isSome then
    .ok { s with products := Store.erase s.products product_id }
  else .error (.notFound "Product not found")

/-- `create_order` (src/main.py lines 233-243): computes the total first
(validating every product id against the `products` store), then builds the
`OrderRead` with `total_amount` set to the computed total (the dumped
`OrderCreate` carries no total), rejects a duplicate id, and stores. -/
def create_order (s : AppState) (order : OrderCreate) (now : Nat) :
    Except Err (OrderRead × AppState) :=
  match compute_order_total s.products order.items with
  | .error e => .error e
  | .ok total =>
    let orr : OrderRead :=
      { id := order.id, customer_name := order.customer_name, items := order.items,
        note := order.note, created_at := now, updated_at := now,
        total_amount := total }
    if (Store.lookup s.orders orr.id).isSome then
      .error (.conflict "Order with this ID already exists")
    else .ok (orr, { s with orders := Store.setv s.orders orr.id orr })

/-- `get_order` (src/main.py lines 255-259). -/
def get_order (s : AppState) (order_id : Nat) : Except Err OrderRead :=
  match Store.lookup s.orders order_id with
  | none => .error (.notFound "Order not found")
  | some o => .ok o

/-- `update_order` (src/main.py lines 261-283): dumps the stored snapshot;
`customer_name` is applied only when present and not `null`; `items`, when
present and not `null`, replaces the list and recomputes the total — but via
`compute_order_total_dumped`, because line 273 passes the `model_dump`'d
dicts (see that definition); `note` is applied whenever present, explicit
`null` included; `updated_at` is refreshed; the rebuilt snapshot is stored. -/
def update_order (s : AppState) (order_id : Nat) (patch : OrderUpdate)
    (now : Nat) : Except Err (OrderRead × AppState) :=
  match Store.lookup s.orders order_id with
  | none => .error (.notFound "Order not found")
  | some data =>
    let cname := match patch.customer_name with
      | some (some v) => v
      | _ => data.customer_name
    let note1 := match patch.note with
      | some v => v
      | none => data.note
    match patch.items with
    | some (some its) =>
      (match compute_order_total_dumped its with
       | .error e => .error e
       | .ok t =>
         let updated : OrderRead :=
           { id := data.id, customer_name := cname, items := its, note := note1,
             created_at := data.created_at, updated_at := now, total_amount := t }
         .ok (updated, { s with orders := Store.setv s.orders order_id updated }))
    | _ =>
      let updated : OrderRead :=
        { id := data.id, customer_name := cname, items := data.items, note := note1,
          created_at := data.created_at, updated_at := now,
          total_amount := data.total_amount }
      .ok (updated, { s with orders := Store.setv s.orders order_id updated })

/-- `delete_order` (src/main.py lines 285-290). -/
def delete_order (s : AppState) (order_id : Nat) : Except Err AppState :=
  if (Store.lookup s.orders order_id).isSome then
    .ok { s with orders := Store.erase s.orders order_id }
  else .error (.notFound "Order not found")

/-- If a key looks up to a value, that value is among the store's values. -/
theorem Store.lookup_mem_values {α : Type} {s : Store α} {k : Nat} {v : α}
    (h : Store.lookup s k = some v) : v ∈ Store.values s := by
  induction s with
  | nil => simp [Store.lookup] at h
  | cons hd t ih =>
    obtain ⟨k0, v0⟩ := hd
    by_cases h0 : k0 = k
    · simp only [Store.lookup, if_pos h0, Option.some.injEq] at h
      subst h
      exact List.mem_cons_self _ _
    · simp only [Store.lookup, if_neg h0] at h
      exact List.mem_cons_of_mem _ (ih h)

/-- Sample product: the spec's `Widget` at 9.99. -/
def wProduct : ProductRead :=
  { id := 1, name := "Widget", description := none, price := 9.99,
    in_stock := 100, created_at := 0, updated_at := 0 }

/-- Sample product: a second catalog entry at 5.00. -/
def gProduct : ProductRead :=
  { id := 2, name := "Gadget", description := some "a gadget",
    price := 5, in_stock := 3, created_at := 0, updated_at := 0 }

/-- Sample stored order. -/
def baseOrder : OrderRead :=
  { id := 7, customer_name := "Alice", items := [⟨1, 2⟩], note := some "hi",
    created_at := 0, updated_at := 0, total_amount := 19.98 }

/-- Sample stored address. -/
def baseAddress : AddressRead :=
  { id := 3, street := "1 Main St", city := "Boston", state := "MA",
    postal_code := "02101", country := "US" }

/-- Sample stored person, with one embedded Boston address. -/
def basePerson : PersonRead :=
  { id := 4, uni := "ab1234", first_name := "Ann", last_name := "Lee",
    email := "ann@example.com", phone := "555", birth_date := "2000-01-01",
    addresses := [baseAddress] }

/-- Sample application state holding one of each entity plus a second
product. -/
def baseState : AppState :=
  { persons := [(4, basePerson)], addresses := [(3, baseAddress)],
    products := [(1, wProduct), (2, gProduct)], orders := [(7, baseOrder)] }

/-- If some line item references a product id absent from the store, the
pricing loop fails with the offending id of one such missing item. -/
theorem compute_order_total_go_missing {products : Store ProductRead}
    {items : List LineItem}
    (h : ∃ li ∈ items, Store.lookup products li.product_id = none) :
    ∀ acc : ℚ, ∃ pid,
      compute_order_total_go products items acc = .error (.unknownProduct pid) ∧
      Store.lookup products pid = none ∧ pid ∈ items.map LineItem.product_id := by
  induction items with
  | nil =>
    obtain ⟨li, hmem, _⟩ := h
    exact absurd hmem (List.not_mem_nil li)
  | cons li rest ih =>
    intro acc
    cases hlk : Store.lookup products li.product_id with
    | none =>
      refine ⟨li.product_id, ?_, hlk, by simp⟩
      simp [compute_order_total_go, hlk]
    | some prod =>
      have h2 : ∃ li2 ∈ rest, Store.lookup products li2.product_id = none := by
        obtain ⟨li2, hmem, hnone⟩ := h
        rcases List.mem_cons.mp hmem with heq | hmem2
        · subst heq
          rw [hlk] at hnone
          exact absurd hnone (by simp)
        · exact ⟨li2, hmem2, hnone⟩
      obtain ⟨pid, h1, hpid, hmap⟩ := ih h2 (acc + prod.price * (li.quantity : ℚ))
      refine ⟨pid, ?_, hpid, by simp [hmap]⟩
      simp [compute_order_total_go, hlk, h1]

/-- Claim C2: creating an order with a line item whose `product_id` is absent
from the product store fails with the invalid-reference error naming a missing
product id from the payload, and the whole application state — in particular
the orders store — is exactly as before the attempt. -/
theorem create_order_invalid_reference (s : AppState) (order : OrderCreate)
    (now : Nat)
    (h : ∃ li ∈ order.items, Store.lookup s.products li.product_id = none) :
    (∃ pid, create_order s order now = .error (.unknownProduct pid) ∧
      Store.lookup s.products pid = none ∧
      pid ∈ order.items.map LineItem.product_id) ∧
    applyExcept s (create_order s order now) = s := by
  obtain ⟨pid, h1, hpid, hmap⟩ := compute_order_total_go_missing h 0
  have hco : create_order s order now = .error (.unknownProduct pid) := by
    simp [create_order, compute_order_total, h1]
  exact ⟨⟨pid, hco, hpid, hmap⟩, by simp [applyExcept, hco]⟩

/-- Witness for C2: creating an order referencing the absent product id 9
against the sample state fails with the invalid-reference error and leaves the
state unchanged. -/
theorem create_order_invalid_reference_witness :
    (∃ pid, create_order baseState ⟨8, "Bob", [⟨9, 1⟩], none⟩ 5 =
        .error (.unknownProduct pid) ∧
      Store.lookup baseState.products pid = none ∧
      pid ∈ (OrderCreate.mk 8 "Bob" [⟨9, 1⟩] none).items.map LineItem.product_id) ∧
    applyExcept baseState (create_order baseState ⟨8, "Bob", [⟨9, 1⟩], none⟩ 5) =
      baseState :=
  create_order_invalid_reference baseState ⟨8, "Bob", [⟨9, 1⟩], none⟩ 5
    ⟨⟨9, 1⟩, by simp, rfl⟩

/-- Counterexample for C3 as frozen: order id 7 is already stored, yet
creating an order under that duplicate identifier whose single line item
references the missing product 9 fails with the unknown-product error — not
the duplicate conflict the claim requires — because `create_order` resolves
pricing (src/main.py line 236) before its duplicate check (line 240). The
state is still left unchanged. -/
theorem create_duplicate_conflict_counterexample :
    Store.lookup baseState.orders 7 = some baseOrder ∧
    Store.lookup baseState.products 9 = none ∧
    create_order baseState ⟨7, "Bob", [⟨9, 1⟩], none⟩ 5 =
      .error (.unknownProduct 9) ∧
    create_order baseState ⟨7, "Bob", [⟨9, 1⟩], none⟩ 5 ≠
      .error (.conflict "Order with this ID already exists") ∧
    applyExcept baseState (create_order baseState ⟨7, "Bob", [⟨9, 1⟩], none⟩ 5) =
      baseState := by
  refine ⟨rfl, rfl, rfl, ?_, rfl⟩
  intro h
  have h2 : Err.unknownProduct 9 =
      Err.conflict "Order with this ID already exists" := Except.error.inj h
  exact Err.noConfusion h2

/-- Claim C3 (amended): a create whose payload carries an identifier already
present in the type's store is rejected as a conflict and leaves the whole
state — in particular the value already stored under that identifier —
untouched, for Address and Product, and for Order whenever its line items all
resolve against the product store; an Order create with a duplicate
identifier is always rejected with some error (pricing runs first, so an
unresolvable line item surfaces as the unknown-product error instead of the
conflict) and likewise leaves the state untouched. The Person creation
payload carries no identifier (the server allocates a fresh one), so a Person
create performed with a fresh allocated identifier never alters any existing
stored person. -/
theorem create_duplicate_conflict :
    (∀ (s : AppState) (a : AddressCreate) (v : AddressRead),
      Store.lookup s.addresses a.id = some v →
      create_address s a = .error (.conflict "Address with this ID already exists") ∧
      applyExcept s (create_address s a) = s) ∧
    (∀ (s : AppState) (p : ProductCreate) (now : Nat) (v : ProductRead),
      Store.lookup s.products p.id = some v →
      create_product s p now = .error (.conflict "Product with this ID already exists") ∧
      applyExcept s (create_product s p now) = s) ∧
    (∀ (s : AppState) (o : OrderCreate) (now : Nat) (total : ℚ) (v : OrderRead),
      compute_order_total s.products o.items = .ok total →
      Store.lookup s.orders o.id = some v →
      create_order s o now = .error (.conflict "Order with this ID already exists") ∧
      applyExcept s (create_order s o now) = s) ∧
    (∀ (s : AppState) (o : OrderCreate) (now : Nat) (v : OrderRead),
      Store.lookup s.orders o.id = some v →
      (∃ e, create_order s o now = .error e) ∧
      applyExcept s (create_order s o now) = s) ∧
    (∀ (s : AppState) (p : PersonCreate) (newId k : Nat) (v : PersonRead),
      Store.lookup s.persons newId = none →
      Store.lookup s.persons k = some v →
      Store.lookup (create_person s p newId).2.persons k = some v) := by
  refine ⟨?_, ?_, ?_, ?_, ?_⟩
  · intro s a v h
    have hc : create_address s a =
        .error (.conflict "Address with this ID already exists") := by
      simp [create_address, h]
    exact ⟨hc, by simp [applyExcept, hc]⟩
  · intro s p now v h
    have hc : create_product s p now =
        .error (.conflict "Product with this ID already exists") := by
      simp [create_product, h]
    exact ⟨hc, by simp [applyExcept, hc]⟩
  · intro s o now total v htot h
    have hc : create_order s o now =
        .error (.conflict "Order with this ID already exists") := by
      simp [create_order, htot, h]
    exact ⟨hc, by simp [applyExcept, hc]⟩
  · intro s o now v h
    cases hct : compute_order_total s.products o.items with
    | error e =>
      have hc : create_order s o now = .error e := by
        simp [create_order, hct]
      exact ⟨⟨e, hc⟩, by simp [applyExcept, hc]⟩
    | ok total =>
      have hc : create_order s o now =
          .error (.conflict "Order with this ID already exists") := by
        simp [create_order, hct, h]
      exact ⟨⟨_, hc⟩, by simp [applyExcept, hc]⟩
  · intro s p newId k v hfresh hk
    have hne : newId ≠ k := by
      intro heq
      rw [heq, hk] at hfresh
      exact Option.noConfusion hfresh
    simp only [create_person]
    rw [Store.lookup_setv_ne _ _ _ _ hne]
    exact hk

/-- Witness for C3 (amended): duplicate-id creates of an address (id 3), a
product (id 1) and an order (id 7, items all resolving) against the sample
state are each rejected with a conflict and leave the state unchanged; a
duplicate-id order create whose line item references the missing product 9 is
also rejected with some error and leaves the state unchanged; and a person
create under the fresh id 10 keeps the person stored under id 4 intact. -/
theorem create_duplicate_conflict_witness :
    (create_address baseState ⟨3, "2 Elm St", "Salem", "MA", "01970", "US"⟩ =
        .error (.conflict "Address with this ID already exists") ∧
      applyExcept baseState
        (create_address baseState ⟨3, "2 Elm St", "Salem", "MA", "01970", "US"⟩) =
        baseState) ∧
    (create_product baseState ⟨1, "Widget X", none, 2, 1⟩ 5 =
        .error (.conflict "Product with this ID already exists") ∧
      applyExcept baseState (create_product baseState ⟨1, "Widget X", none, 2, 1⟩ 5) =
        baseState) ∧
    (create_order baseState ⟨7, "Bob", [], none⟩ 5 =
        .error (.conflict "Order with this ID already exists") ∧
      applyExcept baseState (create_order baseState ⟨7, "Bob", [], none⟩ 5) =
        baseState) ∧
    ((∃ e, create_order baseState ⟨7, "Bob", [⟨9, 1⟩], none⟩ 5 = .error e) ∧
      applyExcept baseState (create_order baseState ⟨7, "Bob", [⟨9, 1⟩], none⟩ 5) =
        baseState) ∧
    Store.lookup
      (create_person baseState
        ⟨"bc7777", "Bea", "Cho", "bea@example.com", "556", "1999-09-09", []⟩ 10).2.persons
      4 = some basePerson :=
  ⟨create_duplicate_conflict.1 baseState ⟨3, "2 Elm St", "Salem", "MA", "01970", "US"⟩
      baseAddress rfl,
    create_duplicate_conflict.2.1 baseState ⟨1, "Widget X", none, 2, 1⟩ 5 wProduct rfl,
    create_duplicate_conflict.2.2.1 baseState ⟨7, "Bob", [], none⟩ 5 (round2 0)
      baseOrder rfl rfl,
    create_duplicate_conflict.2.2.2.1 baseState ⟨7, "Bob", [⟨9, 1⟩], none⟩ 5
      baseOrder rfl,
    create_duplicate_conflict.2.2.2.2 baseState
      ⟨"bc7777", "Bea", "Cho", "bea@example.com", "556", "1999-09-09", []⟩ 10 4
      basePerson rfl rfl⟩

/-- Claim C4: patching a stored order with a payload that does not include the
`items` field leaves `items` and `total_amount` exactly as stored, and the
patched order does not depend on the product store (no pricing
recomputation). -/
theorem update_order_no_items_patch (s : AppState) (order_id : Nat)
    (patch : OrderUpdate) (now : Nat) (data u : OrderRead) (s' : AppState)
    (hp : patch.items = none)
    (hl : Store.lookup s.orders order_id = some data)
    (hu : update_order s order_id patch now = .ok (u, s')) :
    u.items = data.items ∧ u.total_amount = data.total_amount ∧
    ∀ products2 : Store ProductRead,
      (update_order { s with products := products2 } order_id patch now).map Prod.fst =
        (update_order s order_id patch now).map Prod.fst := by
  simp only [update_order, hl, hp, Except.ok.injEq, Prod.mk.injEq] at hu
  obtain ⟨hu1, hu2⟩ := hu
  subst hu1
  refine ⟨rfl, rfl, ?_⟩
  intro products2
  simp [update_order, hl, hp, Except.map]

/-- Witness for C4: a note-only patch of the stored sample order keeps its
items and total and is insensitive to the product store. -/
theorem update_order_no_items_patch_witness :
    ({ baseOrder with note := some "ring twice", updated_at := 5 } : OrderRead).items =
        baseOrder.items ∧
    ({ baseOrder with note := some "ring twice", updated_at := 5 } : OrderRead).total_amount =
        baseOrder.total_amount ∧
    ∀ products2 : Store ProductRead,
      (update_order { baseState with products := products2 } 7
          ⟨none, none, some (some "ring twice")⟩ 5).map Prod.fst =
        (update_order baseState 7 ⟨none, none, some (some "ring twice")⟩ 5).map
          Prod.fst :=
  update_order_no_items_patch baseState 7 ⟨none, none, some (some "ring twice")⟩ 5
    baseOrder { baseOrder with note := some "ring twice", updated_at := 5 }
    { baseState with
      orders := Store.setv baseState.orders 7
        { baseOrder with note := some "ring twice", updated_at := 5 } }
    rfl rfl rfl

/-- Claim C5: for Product and Address patches, each payload field explicitly
provided (including an explicit `null` for the nullable `description`) equals
the provided value on the patched snapshot, and each payload field not
provided is copied verbatim from the stored snapshot. -/
theorem patch_merge_fields :
    (∀ (s : AppState) (pid : Nat) (patch : ProductUpdate) (now : Nat)
        (data u : ProductRead) (s' : AppState),
      Store.lookup s.products pid = some data →
      update_product s pid patch now = .ok (u, s') →
      (∀ v, patch.name = some v → u.name = v) ∧
      (patch.name = none → u.name = data.name) ∧
      (∀ v, patch.description = some v → u.description = v) ∧
      (patch.description = none → u.description = data.description) ∧
      (∀ v, patch.price = some v → u.price = v) ∧
      (patch.price = none → u.price = data.price) ∧
      (∀ v, patch.in_stock = some v → u.in_stock = v) ∧
      (patch.in_stock = none → u.in_stock = data.in_stock)) ∧
    (∀ (s : AppState) (aid : Nat) (update : AddressUpdate)
        (data u : AddressRead) (s' : AppState),
      Store.lookup s.addresses aid = some data →
      update_address s aid update = .ok (u, s') →
      (∀ v, update.street = some v → u.street = v) ∧
      (update.street = none → u.street = data.street) ∧
      (∀ v, update.city = some v → u.city = v) ∧
      (update.city = none → u.city = data.city) ∧
      (∀ v, update.state = some v → u.state = v) ∧
      (update.state = none → u.state = data.state) ∧
      (∀ v, update.postal_code = some v → u.postal_code = v) ∧
      (update.postal_code = none → u.postal_code = data.postal_code) ∧
      (∀ v, update.country = some v → u.country = v) ∧
      (update.country = none → u.country = data.country)) := by
  constructor
  · intro s pid patch now data u s' hl hu
    simp only [update_product, hl, Except.ok.injEq, Prod.mk.injEq] at hu
    obtain ⟨hu1, hu2⟩ := hu
    subst hu1
    refine ⟨?_, ?_, ?_, ?_, ?_, ?_, ?_, ?_⟩ <;>
      first
        | (intro v hv; simp [hv])
        | (intro hv; simp [hv])
  · intro s aid update data u s' hl hu
    simp only [update_address, hl, Except.ok.injEq, Prod.mk.injEq] at hu
    obtain ⟨hu1, hu2⟩ := hu
    subst hu1
    refine ⟨?_, ?_, ?_, ?_, ?_, ?_, ?_, ?_, ?_, ?_⟩ <;>
      first
        | (intro v hv; simp [hv])
        | (intro hv; simp [hv])

/-- Product snapshot produced by the sample C5 product patch. -/
def wProductPatched : ProductRead :=
  { wProduct with
      name := "Widget X", description := none, in_stock := 42, updated_at := 5 }

/-- Address snapshot produced by the sample C5 address patch. -/
def baseAddressPatched : AddressRead :=
  { baseAddress with street := "9 Oak Ave", country := "CA" }

/-- Witness for C5: patching product 1 with name, explicit-null description
and stock provided (price absent), and address 3 with street and country
provided, yields exactly the provided values on the provided fields and the
stored values elsewhere. -/
theorem patch_merge_fields_witness :
    ((∀ v, (some "Widget X" : Option String) = some v → wProductPatched.name = v) ∧
      ((some "Widget X" : Option String) = none → wProductPatched.name = wProduct.name) ∧
      (∀ v, (some none : Option (Option String)) = some v → wProductPatched.description = v) ∧
      ((some none : Option (Option String)) = none →
        wProductPatched.description = wProduct.description) ∧
      (∀ v, (none : Option ℚ) = some v → wProductPatched.price = v) ∧
      ((none : Option ℚ) = none → wProductPatched.price = wProduct.price) ∧
      (∀ v, (some 42 : Option Nat) = some v → wProductPatched.in_stock = v) ∧
      ((some 42 : Option Nat) = none → wProductPatched.in_stock = wProduct.in_stock)) ∧
    ((∀ v, (some "9 Oak Ave" : Option String) = some v → baseAddressPatched.street = v) ∧
      ((some "9 Oak Ave" : Option String) = none →
        baseAddressPatched.street = baseAddress.street) ∧
      (∀ v, (none : Option String) = some v → baseAddressPatched.city = v) ∧
      ((none : Option String) = none → baseAddressPatched.city = baseAddress.city) ∧
      (∀ v, (none : Option String) = some v → baseAddressPatched.state = v) ∧
      ((none : Option String) = none → baseAddressPatched.state = baseAddress.state) ∧
      (∀ v, (none : Option String) = some v → baseAddressPatched.postal_code = v) ∧
      ((none : Option String) = none →
        baseAddressPatched.postal_code = baseAddress.postal_code) ∧
      (∀ v, (some "CA" : Option String) = some v → baseAddressPatched.country = v) ∧
      ((some "CA" : Option String) = none → baseAddressPatched.country = baseAddress.country)) := by
  constructor
  · exact patch_merge_fields.1 baseState 1 ⟨some "Widget X", some none, none, some 42⟩ 5
      wProduct wProductPatched
      { baseState with products := Store.setv baseState.products 1 wProductPatched }
      rfl rfl
  · exact patch_merge_fields.2 baseState 3 ⟨some "9 Oak Ave", none, none, none, some "CA"⟩
      baseAddress baseAddressPatched
      { baseState with addresses := Store.setv baseState.addresses 3 baseAddressPatched }
      rfl rfl

/-- Timestamp invariant of spec section 3 over the two timestamped stores:
every stored Product and Order snapshot has `created_at ≤ updated_at`, and no
`updated_at` is ahead of the clock. -/
abbrev tsInv (s : AppState) (clock : Nat) : Prop :=
  (∀ p ∈ Store.values s.products, p.created_at ≤ p.updated_at ∧ p.updated_at ≤ clock) ∧
  (∀ o ∈ Store.values s.orders, o.created_at ≤ o.updated_at ∧ o.updated_at ≤ clock)

/-- Writing a timestamp-respecting product snapshot preserves the timestamp
invariant under a clock advanced to `now`. -/
theorem tsInv_set_product (s : AppState) (clock now : Nat) (h : tsInv s clock)
    (hclk : clock ≤ now) (k : Nat) (u : ProductRead)
    (h1 : u.created_at ≤ u.updated_at) (h2 : u.updated_at ≤ now) :
    tsInv { s with products := Store.setv s.products k u } now := by
  obtain ⟨hp, ho⟩ := h
  constructor
  · intro x hx
    rcases Store.mem_values_setv hx with rfl | hx2
    · exact ⟨h1, h2⟩
    · exact ⟨(hp x hx2).1, le_trans (hp x hx2).2 hclk⟩
  · intro x hx
    exact ⟨(ho x hx).1, le_trans (ho x hx).2 hclk⟩

/-- Writing a timestamp-respecting order snapshot preserves the timestamp
invariant under a clock advanced to `now`. -/
theorem tsInv_set_order (s : AppState) (clock now : Nat) (h : tsInv s clock)
    (hclk : clock ≤ now) (k : Nat) (u : OrderRead)
    (h1 : u.created_at ≤ u.updated_at) (h2 : u.updated_at ≤ now) :
    tsInv { s with orders := Store.setv s.orders k u } now := by
  obtain ⟨hp, ho⟩ := h
  constructor
  · intro x hx
    exact ⟨(hp x hx).1, le_trans (hp x hx).2 hclk⟩
  · intro x hx
    rcases Store.mem_values_setv hx with rfl | hx2
    · exact ⟨h1, h2⟩
    · exact ⟨(ho x hx2).1, le_trans (ho x hx2).2 hclk⟩

/-- Claim C6: both timestamps are set (to the creation instant) when a Product
or Order is created, every successful patch stamps `updated_at` with the
current time whatever fields it carries, and the invariant
`created_at ≤ updated_at ≤ clock` on all stored Product/Order snapshots is
preserved by create, patch and delete under a non-decreasing clock. -/
theorem timestamps_invariant (s : AppState) (clock now : Nat)
    (hinv : tsInv s clock) (hclk : clock ≤ now) :
    (∀ (p : ProductCreate) (r : ProductRead) (s' : AppState),
      create_product s p now = .ok (r, s') →
      r.created_at = now ∧ r.updated_at = now ∧ tsInv s' now) ∧
    (∀ (pid : Nat) (patch : ProductUpdate) (r : ProductRead) (s' : AppState),
      update_product s pid patch now = .ok (r, s') →
      r.updated_at = now ∧ tsInv s' now) ∧
    (∀ (o : OrderCreate) (r : OrderRead) (s' : AppState),
      create_order s o now = .ok (r, s') →
      r.created_at = now ∧ r.updated_at = now ∧ tsInv s' now) ∧
    (∀ (oid : Nat) (patch : OrderUpdate) (r : OrderRead) (s' : AppState),
      update_order s oid patch now = .ok (r, s') →
      r.updated_at = now ∧ tsInv s' now) ∧
    (∀ (pid : Nat) (s' : AppState), delete_product s pid = .ok s' → tsInv s' now) ∧
    (∀ (oid : Nat) (s' : AppState), delete_order s oid = .ok s' → tsInv s' now) := by
  obtain ⟨hp, ho⟩ := hinv
  refine ⟨?_, ?_, ?_, ?_, ?_, ?_⟩
  · intro p r s' hu
    by_cases hdup : (Store.lookup s.products p.id).isSome
    · simp [create_product, hdup] at hu
    · simp only [create_product, Bool.not_eq_true] at hdup
      simp only [create_product, hdup, Bool.false_eq_true, if_false,
        Except.ok.injEq, Prod.mk.injEq] at hu
      obtain ⟨hu1, hu2⟩ := hu
      subst hu1
      subst hu2
      exact ⟨rfl, rfl, tsInv_set_product s clock now ⟨hp, ho⟩ hclk _ _ le_rfl le_rfl⟩
  · intro pid patch r s' hu
    cases hlk : Store.lookup s.products pid with
    | none => simp [update_product, hlk] at hu
    | some data =>
      simp only [update_product, hlk, Except.ok.injEq, Prod.mk.injEq] at hu
      obtain ⟨hu1, hu2⟩ := hu
      subst hu1
      subst hu2
      have hdata := hp data (Store.lookup_mem_values hlk)
      refine ⟨rfl, tsInv_set_product s clock now ⟨hp, ho⟩ hclk _ _ ?_ le_rfl⟩
      exact le_trans hdata.1 (le_trans hdata.2 hclk)
  · intro o r s' hu
    cases hct : compute_order_total s.products o.items with
    | error e => simp [create_order, hct] at hu
    | ok total =>
      by_cases hdup : (Store.lookup s.orders o.id).isSome
      · simp [create_order, hct, hdup] at hu
      · simp only [create_order, Bool.not_eq_true] at hdup
        simp only [create_order, hct, hdup, Bool.false_eq_true, if_false,
          Except.ok.injEq, Prod.mk.injEq] at hu
        obtain ⟨hu1, hu2⟩ := hu
        subst hu1
        subst hu2
        exact ⟨rfl, rfl, tsInv_set_order s clock now ⟨hp, ho⟩ hclk _ _ le_rfl le_rfl⟩
  · intro oid patch r s' hu
    cases hlk : Store.lookup s.orders oid with
    | none => simp [update_order, hlk] at hu
    | some data =>
      have hdata := ho data (Store.lookup_mem_values hlk)
      have hcreated : data.created_at ≤ now :=
        le_trans hdata.1 (le_trans hdata.2 hclk)
      cases hpi : patch.items with
      | none =>
        simp only [update_order, hlk, hpi, Except.ok.injEq, Prod.mk.injEq] at hu
        obtain ⟨hu1, hu2⟩ := hu
        subst hu1
        subst hu2
        exact ⟨rfl, tsInv_set_order s clock now ⟨hp, ho⟩ hclk _ _ hcreated le_rfl⟩
      | some pi2 =>
        cases pi2 with
        | none =>
          simp only [update_order, hlk, hpi, Except.ok.injEq, Prod.mk.injEq] at hu
          obtain ⟨hu1, hu2⟩ := hu
          subst hu1
          subst hu2
          exact ⟨rfl, tsInv_set_order s clock now ⟨hp, ho⟩ hclk _ _ hcreated le_rfl⟩
        | some its =>
          cases its with
          | nil =>
            simp only [update_order, hlk, hpi, compute_order_total_dumped,
              Except.ok.injEq, Prod.mk.injEq] at hu
            obtain ⟨hu1, hu2⟩ := hu
            subst hu1
            subst hu2
            exact ⟨rfl, tsInv_set_order s clock now ⟨hp, ho⟩ hclk _ _ hcreated le_rfl⟩
          | cons li rest =>
            simp [update_order, hlk, hpi, compute_order_total_dumped] at hu
  · intro pid s' hu
    by_cases hdel : (Store.lookup s.products pid).isSome
    · simp only [delete_product, hdel, if_true, Except.ok.injEq] at hu
      subst hu
      constructor
      · intro x hx
        have hx2 := Store.mem_values_erase hx
        exact ⟨(hp x hx2).1, le_trans (hp x hx2).2 hclk⟩
      · intro x hx
        exact ⟨(ho x hx).1, le_trans (ho x hx).2 hclk⟩
    · simp [delete_product, hdel] at hu
  · intro oid s' hu
    by_cases hdel : (Store.lookup s.orders oid).isSome
    · simp only [delete_order, hdel, if_true, Except.ok.injEq] at hu
      subst hu
      constructor
      · intro x hx
        exact ⟨(hp x hx).1, le_trans (hp x hx).2 hclk⟩
      · intro x hx
        have hx2 := Store.mem_values_erase hx
        exact ⟨(ho x hx2).1, le_trans (ho x hx2).2 hclk⟩
    · simp [delete_order, hdel] at hu

/-- Product snapshot created by the C6 witness create. -/
def lampProduct : ProductRead :=
  { id := 9, name := "Lamp", description := none, price := 3, in_stock := 7,
    created_at := 5, updated_at := 5 }

/-- State after the C6 witness create. -/
def stateAfterLamp : AppState :=
  { baseState with products := Store.setv baseState.products 9 lampProduct }

/-- Witness for C6: on the sample state (all timestamps 0) under clock 0,
creating product 9 at time 5 stamps both timestamps with 5 and preserves the
timestamp invariant at time 5. -/
theorem timestamps_invariant_witness :
    lampProduct.created_at = 5 ∧ lampProduct.updated_at = 5 ∧
    tsInv stateAfterLamp 5 :=
  (timestamps_invariant baseState 0 5 (by decide) (by decide)).1
    ⟨9, "Lamp", none, 3, 7⟩ lampProduct stateAfterLamp rfl

/-- Claim C7: for each entity type, immediately getting the identifier of the
entity returned by a successful create returns exactly the created value. -/
theorem create_get_round_trip :
    (∀ (s : AppState) (p : PersonCreate) (newId : Nat),
      get_person (create_person s p newId).2 (create_person s p newId).1.id =
        .ok (create_person s p newId).1) ∧
    (∀ (s : AppState) (a : AddressCreate) (r : AddressRead) (s' : AppState),
      create_address s a = .ok (r, s') → get_address s' r.id = .ok r) ∧
    (∀ (s : AppState) (p : ProductCreate) (now : Nat) (r : ProductRead) (s' : AppState),
      create_product s p now = .ok (r, s') → get_product s' r.id = .ok r) ∧
    (∀ (s : AppState) (o : OrderCreate) (now : Nat) (r : OrderRead) (s' : AppState),
      create_order s o now = .ok (r, s') → get_order s' r.id = .ok r) := by
  refine ⟨?_, ?_, ?_, ?_⟩
  · intro s p newId
    simp [create_person, get_person, Store.lookup_setv_self]
  · intro s a r s' hu
    by_cases hdup : (Store.lookup s.addresses a.id).isSome
    · simp [create_address, hdup] at hu
    · simp only [create_address, Bool.not_eq_true] at hdup
      simp only [create_address, hdup, Bool.false_eq_true, if_false,
        Except.ok.injEq, Prod.mk.injEq] at hu
      obtain ⟨hu1, hu2⟩ := hu
      subst hu1
      subst hu2
      simp [get_address, Store.lookup_setv_self]
  · intro s p now r s' hu
    by_cases hdup : (Store.lookup s.products p.id).isSome
    · simp [create_product, hdup] at hu
    · simp only [create_product, Bool.not_eq_true] at hdup
      simp only [create_product, hdup, Bool.false_eq_true, if_false,
        Except.ok.injEq, Prod.mk.injEq] at hu
      obtain ⟨hu1, hu2⟩ := hu
      subst hu1
      subst hu2
      simp [get_product, Store.lookup_setv_self]
  · intro s o now r s' hu
    cases hct : compute_order_total s.products o.items with
    | error e => simp [create_order, hct] at hu
    | ok total =>
      by_cases hdup : (Store.lookup s.orders o.id).isSome
      · simp [create_order, hct, hdup] at hu
      · simp only [create_order, Bool.not_eq_true] at hdup
        simp only [create_order, hct, hdup, Bool.false_eq_true, if_false,
          Except.ok.injEq, Prod.mk.injEq] at hu
        obtain ⟨hu1, hu2⟩ := hu
        subst hu1
        subst hu2
        simp [get_order, Store.lookup_setv_self]

/-- Address created by the C7 witness. -/
def elmAddress : AddressRead :=
  { id := 11, street := "2 Elm St", city := "Salem", state := "MA",
    postal_code := "01970", country := "US" }

/-- Order created by the C7 witness (empty items, total `round(0.0, 2)`). -/
def emptyOrder : OrderRead :=
  { id := 12, customer_name := "Cal", items := [], note := none,
    created_at := 5, updated_at := 5, total_amount := round2 0 }

/-- Witness for C7: on the sample state, creating a person (fresh id 10), an
address (id 11), a product (id 9) and an order (id 12, empty items) and then
getting each returned id yields exactly each create's return value. -/
theorem create_get_round_trip_witness :
    (get_person
        (create_person baseState
          ⟨"bc7777", "Bea", "Cho", "bea@example.com", "556", "1999-09-09", []⟩ 10).2
        (create_person baseState
          ⟨"bc7777", "Bea", "Cho", "bea@example.com", "556", "1999-09-09", []⟩ 10).1.id =
      .ok (create_person baseState
          ⟨"bc7777", "Bea", "Cho", "bea@example.com", "556", "1999-09-09", []⟩ 10).1) ∧
    get_address { baseState with addresses := Store.setv baseState.addresses 11 elmAddress }
      elmAddress.id = .ok elmAddress ∧
    get_product stateAfterLamp lampProduct.id = .ok lampProduct ∧
    get_order { baseState with orders := Store.setv baseState.orders 12 emptyOrder }
      emptyOrder.id = .ok emptyOrder :=
  ⟨create_get_round_trip.1 baseState
      ⟨"bc7777", "Bea", "Cho", "bea@example.com", "556", "1999-09-09", []⟩ 10,
    create_get_round_trip.2.1 baseState ⟨11, "2 Elm St", "Salem", "MA", "01970", "US"⟩
      elmAddress
      { baseState with addresses := Store.setv baseState.addresses 11 elmAddress } rfl,
    create_get_round_trip.2.2.1 baseState ⟨9, "Lamp", none, 3, 7⟩ 5 lampProduct
      stateAfterLamp rfl,
    create_get_round_trip.2.2.2 baseState ⟨12, "Cal", [], none⟩ 5 emptyOrder
      { baseState with orders := Store.setv baseState.orders 12 emptyOrder } rfl⟩

/-- The empty needle is a substring of every string. -/
theorem containsL_nil (l : List Char) : containsL [] l = true := by
  cases l <;> simp [containsL, startsWithL]

/-- Claim C8: list filtering returns exactly the matching entities in input
order — Persons filtered by city are exactly those with at least one embedded
address whose city equals the literal (case-sensitive), Products filtered by
name are exactly those whose name contains the literal case-insensitively,
supplied predicates compose by conjunction, and with no predicates the full
stored list is returned unchanged. -/
theorem list_filter_semantics :
    (∀ (s : AppState) (q : String),
      list_persons s none none none none none none (some q) none =
        (Store.values s.persons).filter
          (fun p => p.addresses.any (fun a => a.city == q))) ∧
    (∀ (s : AppState) (q : String),
      list_products s (some q) =
        (Store.values s.products).filter
          (fun p => containsStr (lowerStr q) (lowerStr p.name))) ∧
    (∀ (s : AppState) (uq cq : String),
      list_persons s (some uq) none none none none none (some cq) none =
        (Store.values s.persons).filter
          (fun p => p.uni == uq && p.addresses.any (fun a => a.city == cq))) ∧
    (∀ s : AppState,
      list_persons s none none none none none none none none =
        Store.values s.persons) ∧
    (∀ s : AppState, list_products s none = Store.values s.products) := by
  refine ⟨?_, ?_, ?_, ?_, ?_⟩
  · intro s q
    rfl
  · intro s q
    by_cases hq : q = ""
    · subst hq
      have hempty : ∀ x : String, containsStr (lowerStr "") x = true := by
        intro x
        have h0 : (lowerStr "").data = [] := rfl
        simp [containsStr, String.toList, h0, containsL_nil]
      simp only [list_products, if_pos rfl]
      exact (List.filter_eq_self.mpr fun a _ => hempty (lowerStr a.name)).symm
    · simp [list_products, hq]
  · intro s uq cq
    show ((Store.values s.persons).filter (fun p => p.uni == uq)).filter
        (fun p => p.addresses.any (fun a => a.city == cq)) = _
    rw [List.filter_filter]
    exact List.filter_congr fun a _ => by rw [Bool.and_comm]
  · intro s
    rfl
  · intro s
    rfl

/-- Claim C9: order pricing resolution never mutates the product store — an
order create or patch, whether it succeeds or raises, leaves every entry of
the product store identical. -/
theorem order_pricing_pure (s : AppState) (o : OrderCreate) (oid : Nat)
    (patch : OrderUpdate) (now : Nat) :
    (applyExcept s (create_order s o now)).products = s.products ∧
    (applyExcept s (update_order s oid patch now)).products = s.products := by
  constructor
  · cases hct : compute_order_total s.products o.items with
    | error e => simp [applyExcept, create_order, hct]
    | ok total =>
      by_cases hdup : (Store.lookup s.orders o.id).isSome <;>
        simp [applyExcept, create_order, hct, hdup]
  · cases hlk : Store.lookup s.orders oid with
    | none => simp [applyExcept, update_order, hlk]
    | some data =>
      cases hpi : patch.items with
      | none => simp [applyExcept, update_order, hlk, hpi]
      | some pi2 =>
        cases pi2 with
        | none => simp [applyExcept, update_order, hlk, hpi]
        | some its =>
          cases its with
          | nil =>
            simp [applyExcept, update_order, hlk, hpi, compute_order_total_dumped]
          | cons li rest =>
            simp [applyExcept, update_order, hlk, hpi, compute_order_total_dumped]

/-- Claim C10: in an order patch, an explicit `null` for `customer_name` or
for `items` keeps the stored value (and for `items` the stored total), an
explicit `null` for `note` clears the note, and `updated_at` is refreshed in
every successful case. -/
theorem update_order_explicit_null (s : AppState) (order_id : Nat)
    (patch : OrderUpdate) (now : Nat) (data u : OrderRead) (s' : AppState)
    (hl : Store.lookup s.orders order_id = some data)
    (hu : update_order s order_id patch now = .ok (u, s')) :
    (patch.customer_name = some none → u.customer_name = data.customer_name) ∧
    (patch.items = some none →
      u.items = data.items ∧ u.total_amount = data.total_amount) ∧
    (patch.note = some none → u.note = none) ∧
    u.updated_at = now := by
  cases hpi : patch.items with
  | none =>
    simp only [update_order, hl, hpi, Except.ok.injEq, Prod.mk.injEq] at hu
    obtain ⟨hu1, hu2⟩ := hu
    subst hu1
    refine ⟨?_, ?_, ?_, rfl⟩
    · intro hc
      simp [hc]
    · intro hitems
      exact Option.noConfusion hitems
    · intro hn
      simp [hn]
  | some pi2 =>
    cases pi2 with
    | none =>
      simp only [update_order, hl, hpi, Except.ok.injEq, Prod.mk.injEq] at hu
      obtain ⟨hu1, hu2⟩ := hu
      subst hu1
      refine ⟨?_, fun _ => ⟨rfl, rfl⟩, ?_, rfl⟩
      · intro hc
        simp [hc]
      · intro hn
        simp [hn]
    | some its =>
      cases its with
      | nil =>
        simp only [update_order, hl, hpi, compute_order_total_dumped,
          Except.ok.injEq, Prod.mk.injEq] at hu
        obtain ⟨hu1, hu2⟩ := hu
        subst hu1
        refine ⟨?_, ?_, ?_, rfl⟩
        · intro hc
          simp [hc]
        · intro hitems
          injection hitems with hitems2
          exact Option.noConfusion hitems2
        · intro hn
          simp [hn]
      | cons li rest =>
        simp [update_order, hl, hpi, compute_order_total_dumped] at hu

/-- Order resulting from the C10 witness patch (all three fields explicitly
null: stored name and items kept, note cleared, timestamp refreshed). -/
def baseOrderNullPatched : OrderRead :=
  { baseOrder with note := none, updated_at := 5 }

/-- Witness for C10: patching the sample order with `customer_name`, `items`
and `note` all explicitly null keeps the stored name, items and total, clears
the note, and stamps `updated_at` with the patch time. -/
theorem update_order_explicit_null_witness :
    ((some none : Option (Option String)) = some none →
      baseOrderNullPatched.customer_name = baseOrder.customer_name) ∧
    ((some none : Option (Option (List LineItem))) = some none →
      baseOrderNullPatched.items = baseOrder.items ∧
      baseOrderNullPatched.total_amount = baseOrder.total_amount) ∧
    ((some none : Option (Option String)) = some none →
      baseOrderNullPatched.note = none) ∧
    baseOrderNullPatched.updated_at = 5 :=
  update_order_explicit_null baseState 7 ⟨some none, some none, some none⟩ 5
    baseOrder baseOrderNullPatched
    { baseState with orders := Store.setv baseState.orders 7 baseOrderNullPatched }
    rfl rfl

/-- Order stored by the C1 example create. -/
def bobOrder : OrderRead :=
  { id := 8, customer_name := "Bob", items := [⟨1, 2⟩, ⟨2, 1⟩], note := none,
    created_at := 5, updated_at := 5, total_amount := 24.98 }

/-- Claim C1 (code bug): on the create path the spec's example holds — an
order for 2 units of product 1 (price 9.99) and 1 unit of product 2
(price 5.00) is stored with `total_amount = round(9.99*2 + 5.00*1, 2) =
24.98`, and `OrderCreate` carries no client-suppliable total. But the patch
path is broken: a patch whose payload includes a nonempty `items` list — here
one unit of product 1, which is present in the product store — raises
`AttributeError` (src/main.py line 273 passes `model_dump`'d dicts to
`compute_order_total`, whose `li.product_id` attribute access fails on a
dict) instead of storing the recomputed total. -/
theorem order_total_create_ok_patch_crashes :
    create_order baseState ⟨8, "Bob", [⟨1, 2⟩, ⟨2, 1⟩], none⟩ 5 =
      .ok (bobOrder,
        { baseState with orders := Store.setv baseState.orders 8 bobOrder }) ∧
    Store.lookup baseState.products 1 = some wProduct ∧
    update_order baseState 7 ⟨none, some (some [⟨1, 1⟩]), none⟩ 5 =
      .error (.attributeError "product_id") := by
  refine ⟨?_, rfl, rfl⟩
  have hct : compute_order_total [(1, wProduct), (2, gProduct)] [⟨1, 2⟩, ⟨2, 1⟩] =
      .ok (24.98 : ℚ) := by
    norm_num [compute_order_total, compute_order_total_go, wProduct,
      gProduct, Store.lookup, round2, roundHalfEven, floorQ, Rat.num_ofNat,
      Rat.den_ofNat, Int.fdiv]
  simp [create_order, hct, baseState, baseOrder, Store.lookup, Store.setv, bobOrder]
